import Mathlib

/-!
Verification of the gst-python repository's specified media-pipeline
semantics.  The repository itself is a binding layer plus example
scripts (`cp.py`, `f2f.py`, `dvdplay.py`); the pipeline engine the
spec describes (pads, links, state machine, scheduler, factory) lives
in the wrapped native library, so those parts are modelled from the
spec, while the example-script logic is embedded directly from the
Python sources under `src/examples`.
-/

namespace Gst

/-- Element/bin lifecycle states, ordered NULL(0) < READY(1) < PAUSED(2)
< PLAYING(3) as in spec section 4.1. -/
inductive State where
  | null
  | ready
  | paused
  | playing
deriving DecidableEq, Repr

/-- Numeric rank of a state, per the spec ordering. -/
def State.toNat : State → Nat
  | .null => 0
  | .ready => 1
  | .paused => 2
  | .playing => 3

/-- The smaller (lower) of two states. -/
def State.minS (a b : State) : State :=
  if a.toNat ≤ b.toNat then a else b

/-- Capability descriptor on a pad: a finite set of acceptable formats,
represented as a list of format codes. -/
structure Caps where
  formats : List Nat
deriving DecidableEq, Repr

/-- Two capability descriptors are compatible when their format sets have
a non-empty intersection. -/
def Caps.intersects (a b : Caps) : Bool :=
  a.formats.any (fun f => b.formats.contains f)

/-- Errors of the link/unlink operations, per spec section 7. -/
inductive LinkError where
  | AlreadyLinked
  | IncompatibleCapabilities
  | NotLinked
deriving DecidableEq, Repr

/-- A pad: an identifier, its capability descriptor, and an optional peer
reference (the peer pad's identifier). -/
structure Pad where
  id : Nat
  caps : Caps
  peer : Option Nat
deriving DecidableEq, Repr

/-- Modelled from the spec: `link(srcPad, sinkPad)` (section 4.3); the
native implementation is not in this repository.  Fails with
`AlreadyLinked` if either pad already has a peer, with
`IncompatibleCapabilities` if capability descriptors do not intersect;
on success establishes reciprocal peer references. -/
def link (a b : Pad) : Except LinkError (Pad × Pad) :=
  if a.peer.isSome || b.peer.isSome then
    .error .AlreadyLinked
  else if !(a.caps.intersects b.caps) then
    .error .IncompatibleCapabilities
  else
    .ok ({ a with peer := some b.id }, { b with peer := some a.id })

/-- Modelled from the spec: `unlink` is the exact inverse of `link`
(section 4.3); fails with `NotLinked` if the pad has no peer, otherwise
clears the reciprocal peer references of the pad and its peer. -/
def unlink (a b : Pad) : Except LinkError (Pad × Pad) :=
  match a.peer with
  | none => .error .NotLinked
  | some _ => .ok ({ a with peer := none }, { b with peer := none })

/-- Whether an `Except` result is a success. -/
def isOk {ε α : Type} : Except ε α → Bool
  | .ok _ => true
  | .error _ => false

/-- State-change error, per spec section 7. -/
inductive SCError where
  | StateChangeFailure
deriving DecidableEq, Repr

/-- State of rank `n` (ranks above 3 clamp to PLAYING). -/
def State.fromRank : Nat → State
  | 0 => .null
  | 1 => .ready
  | 2 => .paused
  | _ => .playing

/-- A child element inside a bin: its current state and its transition
hook, modelled as a predicate telling whether the hook for the step
entering a given state succeeds. -/
structure Child where
  state : State
  hookOk : State → Bool

/-- The ordered sequence of intermediate states strictly between `cur`
and `target`, inclusive of `target`: ascending when `target > cur`,
descending when `target < cur`, empty when equal (spec section 4.1). -/
def stateSeq (cur target : State) : List State :=
  if cur.toNat < target.toNat then
    ((List.range (target.toNat - cur.toNat)).map
      (fun k => State.fromRank (cur.toNat + 1 + k)))
  else if target.toNat < cur.toNat then
    ((List.range (cur.toNat - target.toNat)).map
      (fun k => State.fromRank (cur.toNat - 1 - k)))
  else []

/-- Apply a list of single-step transitions to a child, invoking the
hook at each step and stopping at the first failing hook. -/
def applyHooks (c : Child) : List State → Child
  | [] => c
  | s :: rest =>
    if c.hookOk s then applyHooks { c with state := s } rest else c

/-- Modelled from the spec: `set_state(target)` on a single element
(section 4.1); the native implementation is not in this repository.
Applies each intermediate transition in order via the transition hook,
stopping at the first failure; the child keeps the last state it
actually reached. -/
def setStateChild (c : Child) (target : State) : Child :=
  applyHooks c (stateSeq c.state target)

/-- A bin: an ordered list of child elements and a reported aggregate
state. -/
structure Bin where
  children : List Child
  state : State

/-- Minimum state across a list of children (the bin's aggregate state);
`dflt` is returned for an empty list. -/
def minAchieved (dflt : State) : List Child → State
  | [] => dflt
  | c :: rest => rest.foldl (fun m x => m.minS x.state) c.state

/-- Modelled from the spec: `set_state(target)` on a Bin (section 4.1);
the native implementation is not in this repository.  Recurses into
every child in registration order; partially-applied transitions on
sibling children are not rolled back; reports `StateChangeFailure` when
any child failed to reach `target`, and the aggregate state is the
minimum state actually achieved across children. -/
def Bin.setState (b : Bin) (target : State) : Except SCError Unit × Bin :=
  let cs := b.children.map (fun c => setStateChild c target)
  let agg := minAchieved target cs
  let res : Except SCError Unit :=
    if cs.all (fun c => c.state = target) then .ok () else .error .StateChangeFailure
  (res, { children := cs, state := agg })

/-- Abstract pipeline data accounting for the scheduler: `remaining` is
the number of buffers the source elements have yet to produce (zero
means every source has signaled EOS), `inflight` the buffered data
currently in flight between elements, `consumed` the data already
delivered to the sinks. -/
structure Pipe where
  remaining : Nat
  inflight : Nat
  consumed : Nat
deriving DecidableEq, Repr

/-- Modelled from the spec: `iterate()` (section 4.2); the native
scheduler is not in this repository.  Performs exactly one scheduling
pass: the sink consumes one in-flight buffer if any, each non-EOS
source produces one buffer into flight; returns `true` while the
pipeline has more work and `false` once every source has signaled EOS
and no buffered data remains in flight. -/
def iterate (p : Pipe) : Bool × Pipe :=
  let consumed1 := if p.inflight > 0 then p.consumed + 1 else p.consumed
  let inflight1 := if p.inflight > 0 then p.inflight - 1 else 0
  let p' : Pipe :=
    if p.remaining > 0 then
      { remaining := p.remaining - 1, inflight := inflight1 + 1, consumed := consumed1 }
    else
      { remaining := 0, inflight := inflight1, consumed := consumed1 }
  (decide (p'.remaining > 0 ∨ p'.inflight > 0), p')

/-- Scheduling-progress measure: positive exactly while work remains. -/
def Pipe.measure (p : Pipe) : Nat :=
  2 * p.remaining + p.inflight

/-- The caller's run loop `while pipeline.iterate(): pass` from the
example scripts: repeatedly iterates until `iterate` reports no more
work, returning the final pipeline data state. -/
def drive (p : Pipe) : Pipe :=
  if h : (iterate p).1 = true then drive (iterate p).2 else (iterate p).2
termination_by p.measure
decreasing_by
  rcases p with ⟨rm, fl, cn⟩
  by_cases hr : 0 < rm <;> by_cases hi : 0 < fl <;>
    simp [iterate, Pipe.measure, hr, hi] at h ⊢ <;> omega

/-- Factory error, per spec section 7. -/
inductive FactoryError where
  | UnknownElementType
deriving DecidableEq, Repr

/-- An element: its factory type name and its instance name. -/
structure Element where
  typeName : String
  name : String
deriving DecidableEq, Repr

/-- The registry of element type names known to the factory. -/
structure Registry where
  types : List String
deriving DecidableEq, Repr

/-- A graph of elements (the contents of a bin/pipeline). -/
structure Graph where
  elements : List Element
deriving DecidableEq, Repr

/-- Modelled from the spec: `createElement(typeName, instanceName)`
(section 6, `gst_element_factory_make`); the native factory is not in
this repository.  Fails with `UnknownElementType` when the type name is
not registered, leaving the graph untouched; returns a fresh element of
that type otherwise. -/
def createElement (reg : Registry) (g : Graph) (typeName instName : String) :
    Except FactoryError Element × Graph :=
  if reg.types.contains typeName then
    (.ok { typeName := typeName, name := instName }, g)
  else
    (.error .UnknownElementType, g)

/-- Policy for data arriving on a still-unlinked dynamically created
pad (spec section 4.2). -/
inductive UnlinkedPolicy where
  | buffer
  | drop
deriving DecidableEq, Repr

/-- A dynamically managed pad at run time: its name, optional peer (by
name) and the data buffered while unlinked. -/
structure RunPad where
  name : String
  peer : Option String
  buffered : List Nat
deriving DecidableEq, Repr

/-- Scheduler-loop state for the dynamic-pad model: whether the loop is
running, the element's pads, and the notifications emitted so far. -/
structure SchedState where
  running : Bool
  pads : List RunPad
  notices : List String
deriving DecidableEq, Repr

/-- Modelled from the spec: dynamic pad creation during iteration
(section 4.2); the native implementation is not in this repository.
Adds a fresh unlinked pad and fires the pad-added (`new_pad`)
notification. -/
def addPad (s : SchedState) (padName : String) : SchedState :=
  { s with
    pads := s.pads ++ [{ name := padName, peer := none, buffered := [] }],
    notices := s.notices ++ ["new_pad:" ++ padName] }

/-- Modelled from the spec: linking a new pad mid-run (section 4.2);
the native implementation is not in this repository.  Sets the pad's
peer without stopping or restarting the scheduling loop. -/
def linkNewPad (s : SchedState) (padName peerName : String) : SchedState :=
  { s with
    pads := s.pads.map (fun p =>
      if p.name = padName then { p with peer := some peerName } else p) }

/-- Modelled from the spec: data arriving on a pad (section 4.2); the
native implementation is not in this repository.  Data on an unlinked
pad is buffered or dropped per the configured policy; a linked pad
forwards (and so does not accumulate).  Total: it always returns a
scheduler state, never aborting the loop. -/
def deliver (policy : UnlinkedPolicy) (s : SchedState) (padName : String)
    (datum : Nat) : SchedState :=
  { s with
    pads := s.pads.map (fun p =>
      if p.name = padName ∧ p.peer = none then
        match policy with
        | .buffer => { p with buffered := p.buffered ++ [datum] }
        | .drop => p
      else p) }

/-- Observable engine calls made by the example scripts, recorded as a
trace: factory creation, property setting (numeric and string values),
signal connection, adding to the pipeline, linking two elements,
`set_state`, and the `while bin.iterate(): pass` run loop. -/
inductive Ev where
  | create (typeName instName : String)
  | setPropN (elemName propName : String) (value : Nat)
  | setPropS (elemName propName value : String)
  | connectSig (elemName sig : String)
  | addToBin (elemName : String)
  | linkE (srcName dstName : String)
  | setSt (s : State)
  | runLoop
deriving DecidableEq, Repr

/-- Environment of an invocation of `cp.py`: the command-line argument
vector (`sys.argv`, program name included) and which of the plugins the
factory can create. -/
structure CpEnv where
  argv : List String
  hasStatistics : Bool
  hasFilesrc : Bool
  hasFilesink : Bool
deriving DecidableEq, Repr

/-- `filter(filters)` from `src/examples/gst/cp.py` (lines 31-73),
with `filters` given as the instance names of the already-created
filter elements.  Checks `len(sys.argv) != 3` first, creates `filesrc`
and `filesink` (returning -1 when either plugin is missing), adds all
elements to the pipeline, links consecutive elements, plays, runs the
iterate loop, stops, and returns 0. -/
def cpFilter (env : CpEnv) (filters : List String) : Int × List Ev :=
  if env.argv.length ≠ 3 then (-1, [])
  else
    let e1 : List Ev := [.create "filesrc" "source"]
    if !env.hasFilesrc then (-1, e1)
    else
      let e2 := e1 ++ [.setPropS "source" "location" (env.argv.getD 1 ""),
                       .create "filesink" "sink"]
      if !env.hasFilesink then (-1, e2)
      else
        let names := "source" :: (filters ++ ["sink"])
        let e3 := e2 ++ [.setPropS "sink" "location" (env.argv.getD 2 "")]
          ++ names.map Ev.addToBin
          ++ (names.zip names.tail).map (fun pr => Ev.linkE pr.1 pr.2)
          ++ [.setSt .playing, .runLoop, .setSt .null]
        (0, e3)

/-- `main()` from `src/examples/gst/cp.py` (lines 75-89): creates and
configures the `statistics` element (silent=0, buffer_update_freq=1,
update_on_eos=1) and then calls `filter([stats])`.  The script's exit
code is this function's return value (line 92-93). -/
def cpMain (env : CpEnv) : Int × List Ev :=
  let e1 : List Ev := [.create "statistics" "stats"]
  if !env.hasStatistics then (-1, e1)
  else
    let e2 := e1 ++ [.setPropN "stats" "silent" 0,
                     .setPropN "stats" "buffer_update_freq" 1,
                     .setPropN "stats" "update_on_eos" 1]
    let r := cpFilter env ["stats"]
    (r.1, e2 ++ r.2)

/-- `main()` from `src/examples/gst/f2f.py` (lines 30-61), as the trace
of engine calls it performs.  It takes the argument vector only to show
it never consults it: fakesrc is created and configured (silent=1,
num_buffers=10), fakesink is created, line 43 of the script sets
`silent` on `src` again (the script says `src`, not `sink`), both are
added, src is linked to sink, the pipeline is driven to PLAYING, the
iterate loop runs until `iterate()` is false, and the pipeline is
returned to NULL. -/
def f2fMain (argv : List String) : List Ev :=
  let _ := argv
  [.create "fakesrc" "src",
   .connectSig "src" "handoff",
   .setPropN "src" "silent" 1,
   .setPropN "src" "num_buffers" 10,
   .create "fakesink" "sink",
   .connectSig "sink" "handoff",
   .setPropN "src" "silent" 1,
   .addToBin "src",
   .addToBin "sink",
   .linkE "src" "sink",
   .setSt .playing,
   .runLoop,
   .setSt .null]

/-- `DVDPlayer.idle` from `src/examples/gstreamer/dvdplay.py` (lines
30-34): calls `pipeline.iterate()`, discards its return value, and
returns 1. -/
def idleHandler (p : Pipe) : Pipe × Int :=
  let r := iterate p
  (r.2, 1)

/-- `DVDPlayer.eof` from `src/examples/gstreamer/dvdplay.py` (lines
36-38): the `eos` signal handler calls `sys.exit(0)`. -/
def eofHandler : Int := 0

/-- Events the GTK main loop dispatches in the dvdplay example: idle
callbacks and the `eos` signal from the source element. -/
inductive GtkEvent where
  | idleTick
  | eosSignal
deriving DecidableEq, Repr

/-- The GTK main loop of dvdplay (`run`, lines 80-95, with
`gtk.idle_add(self.idle, self.pipeline)`): each idle tick invokes the
idle handler, which stays scheduled while it returns non-zero; the
`eos` signal runs `eof`, exiting the process with code 0.  `none` means
the loop is still running after the given events. -/
def dvdRun : Bool → Pipe → List GtkEvent → Option Int
  | _, _, [] => none
  | idleOn, p, .idleTick :: rest =>
    if idleOn then
      let q := idleHandler p
      dvdRun (if q.2 = 0 then false else true) q.1 rest
    else
      dvdRun false p rest
  | _, _, .eosSignal :: _ => some eofHandler

/-- A concrete source-side pad with capabilities accepting formats 1, 2. -/
def padA : Pad := { id := 0, caps := ⟨[1, 2]⟩, peer := none }

/-- A concrete sink-side pad with capabilities accepting formats 2, 3. -/
def padB : Pad := { id := 1, caps := ⟨[2, 3]⟩, peer := none }

/-- A concrete pad that already has a peer. -/
def padC : Pad := { id := 2, caps := ⟨[2]⟩, peer := some 5 }

/-- A concrete invocation environment for `cp.py` with too few
command-line arguments but all plugins available. -/
def cpEnvBadArgs : CpEnv :=
  { argv := ["cp"], hasStatistics := true, hasFilesrc := true, hasFilesink := true }

/-- A transition hook that succeeds on every step. -/
def hookAll : State → Bool := fun _ => true

/-- A transition hook that allows reaching READY but fails the step
into PAUSED (and hence never reaches PLAYING). -/
def hookStuckReady : State → Bool := fun s => s.toNat ≤ 1

/-- A concrete bin with one healthy child and one child whose hook
fails on the way up. -/
def binW : Bin :=
  { children := [{ state := .null, hookOk := hookAll },
                 { state := .null, hookOk := hookStuckReady }],
    state := .null }

/- ------------------------------------------------------------------ -/
/- Helper lemmas                                                      -/
/- ------------------------------------------------------------------ -/

theorem State.minS_le_left (a b : State) : (a.minS b).toNat ≤ a.toNat := by
  unfold State.minS
  split
  · exact Nat.le_refl _
  · omega

theorem State.minS_le_right (a b : State) : (a.minS b).toNat ≤ b.toNat := by
  unfold State.minS
  split
  · assumption
  · exact Nat.le_refl _

theorem State.minS_cases (a b : State) : a.minS b = a ∨ a.minS b = b := by
  unfold State.minS
  split
  · exact Or.inl rfl
  · exact Or.inr rfl

theorem State.eq_playing_of_ge (s : State) (h : 3 ≤ s.toNat) : s = .playing := by
  cases s <;> simp [State.toNat] at h ⊢

theorem foldl_minS_le_init (l : List Child) (init : State) :
    (l.foldl (fun m x => m.minS x.state) init).toNat ≤ init.toNat := by
  induction l generalizing init with
  | nil => exact Nat.le_refl _
  | cons c rest ih =>
    calc (List.foldl (fun m x => m.minS x.state) (init.minS c.state) rest).toNat
        ≤ (init.minS c.state).toNat := ih _
      _ ≤ init.toNat := State.minS_le_left _ _

theorem foldl_minS_le_mem (l : List Child) (init : State) :
    ∀ c ∈ l, (l.foldl (fun m x => m.minS x.state) init).toNat ≤ c.state.toNat := by
  induction l generalizing init with
  | nil => intro c hc; cases hc
  | cons d rest ih =>
    intro c hc
    rcases List.mem_cons.mp hc with h | h
    · subst h
      calc (List.foldl (fun m x => m.minS x.state) (init.minS c.state) rest).toNat
          ≤ (init.minS c.state).toNat := foldl_minS_le_init _ _
        _ ≤ c.state.toNat := State.minS_le_right _ _
    · exact ih (init.minS d.state) c h

theorem foldl_minS_attained (l : List Child) (init : State) :
    l.foldl (fun m x => m.minS x.state) init = init
    ∨ ∃ c ∈ l, l.foldl (fun m x => m.minS x.state) init = c.state := by
  induction l generalizing init with
  | nil => exact Or.inl rfl
  | cons d rest ih =>
    rcases ih (init.minS d.state) with h | ⟨c, hc, h⟩
    · rcases State.minS_cases init d.state with h2 | h2
      · exact Or.inl (by rw [List.foldl_cons, h, h2])
      · exact Or.inr ⟨d, List.mem_cons_self _ _, by rw [List.foldl_cons, h, h2]⟩
    · exact Or.inr ⟨c, List.mem_cons_of_mem _ hc, h⟩

theorem minAchieved_le (dflt : State) (l : List Child) :
    ∀ c ∈ l, (minAchieved dflt l).toNat ≤ c.state.toNat := by
  intro c hc
  cases l with
  | nil => cases hc
  | cons d rest =>
    rcases List.mem_cons.mp hc with h | h
    · subst h
      exact (foldl_minS_le_init rest c.state).trans (Nat.le_refl _)
    · exact foldl_minS_le_mem rest d.state c h

theorem minAchieved_attained (dflt : State) (l : List Child) (h : l ≠ []) :
    ∃ c ∈ l, minAchieved dflt l = c.state := by
  cases l with
  | nil => exact absurd rfl h
  | cons d rest =>
    rcases foldl_minS_attained rest d.state with h2 | ⟨c, hc, h2⟩
    · exact ⟨d, List.mem_cons_self _ _, h2⟩
    · exact ⟨c, List.mem_cons_of_mem _ hc, h2⟩

/- ------------------------------------------------------------------ -/
/- Claim theorems                                                     -/
/- ------------------------------------------------------------------ -/

/-- C1: `link(A,B)` succeeds iff the capability descriptors of A and B
intersect and neither pad has a peer; on success the peer references
are reciprocal (`A.peer == B` and `B.peer == A`); when either pad
already has a peer it fails with `AlreadyLinked`. -/
theorem link_spec (a b : Pad) :
    (isOk (link a b) = (a.caps.intersects b.caps && a.peer.isNone && b.peer.isNone))
    ∧ (∀ a' b', link a b = .ok (a', b') → a'.peer = some b.id ∧ b'.peer = some a.id)
    ∧ ((a.peer.isSome || b.peer.isSome) = true → link a b = .error .AlreadyLinked) := by
  refine ⟨?_, ?_, ?_⟩
  · rcases ha : a.peer with _ | pa <;> rcases hb : b.peer with _ | pb <;>
      by_cases hc : a.caps.intersects b.caps <;>
      simp [link, isOk, ha, hb, hc]
  · intro a' b' h
    rcases ha : a.peer with _ | pa <;> rcases hb : b.peer with _ | pb <;>
      by_cases hc : a.caps.intersects b.caps <;>
      simp [link, ha, hb, hc] at h
    rcases h with ⟨h1, h2⟩
    subst h1
    subst h2
    simp
  · intro h
    simp [link, h]

/-- Witness for C1 at the concrete pads: linking two free compatible
pads succeeds with reciprocal peers, and linking onto an
already-linked pad fails with `AlreadyLinked`. -/
theorem link_spec_witness :
    (isOk (link padA padB)
      = (padA.caps.intersects padB.caps && padA.peer.isNone && padB.peer.isNone))
    ∧ ({ padA with peer := some 1 }.peer = some padB.id
        ∧ { padB with peer := some 0 }.peer = some padA.id)
    ∧ link padA padC = .error .AlreadyLinked :=
  ⟨(link_spec padA padB).1,
   (link_spec padA padB).2.1 { padA with peer := some 1 } { padB with peer := some 0 } rfl,
   (link_spec padA padC).2.2 rfl⟩

/-- C2: for pads with no peers, `unlink` after a successful `link` on
the same pair restores both pads exactly to their peerless prior
state, and `unlink` on a pad with no peer fails with `NotLinked`. -/
theorem unlink_roundtrip (a b : Pad) (ha : a.peer = none) (hb : b.peer = none) :
    (∀ a' b', link a b = .ok (a', b') → unlink a' b' = .ok (a, b))
    ∧ unlink a b = .error .NotLinked := by
  rcases a with ⟨ia, ca, pa⟩
  rcases b with ⟨ib, cb, pb⟩
  simp only at ha hb
  subst ha
  subst hb
  constructor
  · intro a' b' h
    by_cases hc : ca.intersects cb <;> simp [link, hc] at h
    rcases h with ⟨h1, h2⟩
    subst h1
    subst h2
    simp [unlink]
  · simp [unlink]

/-- Witness for C2 at the concrete pads: after linking `padA` and
`padB`, unlinking returns both pads to their original peerless values,
and unlinking the peerless `padA` fails with `NotLinked`. -/
theorem unlink_roundtrip_witness :
    unlink { padA with peer := some 1 } { padB with peer := some 0 } = .ok (padA, padB)
    ∧ unlink padA padB = .error .NotLinked :=
  ⟨(unlink_roundtrip padA padB rfl rfl).1
      { padA with peer := some 1 } { padB with peer := some 0 } rfl,
   (unlink_roundtrip padA padB rfl rfl).2⟩

/-- C3: if a bin's reported state after `set_state(PLAYING)` is PLAYING
then every child reached PLAYING; if any child failed to reach PLAYING
the bin reports `StateChangeFailure`; sibling transitions are not
rolled back (each resulting child is exactly its own independent
transition result); and the reported aggregate state is the minimum
state actually achieved across the children (a lower bound that is
attained). -/
theorem bin_setState_playing (b : Bin) :
    ((b.setState .playing).2.state = .playing →
        ∀ c ∈ (b.setState .playing).2.children, c.state = .playing)
    ∧ ((∃ c ∈ (b.setState .playing).2.children, c.state ≠ .playing) →
        (b.setState .playing).1 = .error .StateChangeFailure)
    ∧ ((b.setState .playing).2.children
        = b.children.map (fun c => setStateChild c .playing))
    ∧ (∀ c ∈ (b.setState .playing).2.children,
        ((b.setState .playing).2.state).toNat ≤ c.state.toNat)
    ∧ (b.children ≠ [] →
        ∃ c ∈ (b.setState .playing).2.children,
          (b.setState .playing).2.state = c.state) := by
  have hch : (b.setState .playing).2.children
      = b.children.map (fun c => setStateChild c .playing) := rfl
  have hst : (b.setState .playing).2.state
      = minAchieved .playing (b.children.map (fun c => setStateChild c .playing)) := rfl
  have hres : (b.setState .playing).1
      = (if (b.children.map (fun c => setStateChild c .playing)).all
            (fun c => c.state = State.playing)
         then Except.ok () else Except.error SCError.StateChangeFailure) := rfl
  refine ⟨?_, ?_, hch, ?_, ?_⟩
  · intro h c hc
    rw [hch] at hc
    have hle := minAchieved_le State.playing _ c hc
    rw [← hst, h] at hle
    exact State.eq_playing_of_ge _ hle
  · rintro ⟨c, hc, hne⟩
    rw [hch] at hc
    rw [hres]
    have hfalse : ((b.children.map (fun c => setStateChild c .playing)).all
        (fun c => c.state = State.playing)) = false := by
      rw [List.all_eq_false]
      exact ⟨c, hc, by simp [hne]⟩
    rw [hfalse]
    rfl
  · intro c hc
    rw [hch] at hc
    rw [hst]
    exact minAchieved_le _ _ c hc
  · intro hne
    rw [hch, hst]
    exact minAchieved_attained _ _ (fun h => hne (List.map_eq_nil_iff.mp h))

/-- Witness for C3 at the concrete bin `binW`: the stuck child makes
`set_state(PLAYING)` report `StateChangeFailure`, and the reported
aggregate state is attained by one of the children. -/
theorem bin_setState_playing_witness :
    (binW.setState .playing).1 = .error .StateChangeFailure
    ∧ ∃ c ∈ (binW.setState .playing).2.children,
        (binW.setState .playing).2.state = c.state :=
  ⟨(bin_setState_playing binW).2.1
      ⟨setStateChild { state := .null, hookOk := hookStuckReady } .playing,
       List.mem_cons_of_mem _ (List.mem_cons_self _ _),
       (by decide : State.ready ≠ State.playing)⟩,
   (bin_setState_playing binW).2.2.2.2 (List.cons_ne_nil _ _)⟩

theorem iterate_false_iff (p : Pipe) :
    (iterate p).1 = false ↔
      ((iterate p).2.remaining = 0 ∧ (iterate p).2.inflight = 0) := by
  rcases p with ⟨rm, fl, cn⟩
  by_cases hr : 0 < rm <;> by_cases hi : 0 < fl <;>
    simp [iterate, hr, hi] <;> omega

theorem iterate_conserves (p : Pipe) :
    (iterate p).2.consumed + (iterate p).2.inflight + (iterate p).2.remaining
      = p.consumed + p.inflight + p.remaining := by
  rcases p with ⟨rm, fl, cn⟩
  by_cases hr : 0 < rm <;> by_cases hi : 0 < fl <;>
    simp [iterate, hr, hi] <;> omega

theorem iterate_lt (p : Pipe) (h : (iterate p).1 = true) :
    ((iterate p).2).measure < p.measure := by
  rcases p with ⟨rm, fl, cn⟩
  by_cases hr : 0 < rm <;> by_cases hi : 0 < fl <;>
    simp [iterate, Pipe.measure, hr, hi] at h ⊢ <;> omega

theorem drive_drains (p : Pipe) :
    (drive p).remaining = 0 ∧ (drive p).inflight = 0
    ∧ (drive p).consumed = p.consumed + p.inflight + p.remaining := by
  generalize hm : p.measure = n
  induction n using Nat.strong_induction_on generalizing p with
  | _ n ih =>
    subst hm
    rw [drive]
    split
    · next h =>
      have h1 := ih ((iterate p).2).measure (iterate_lt p h) (iterate p).2 rfl
      refine ⟨h1.1, h1.2.1, ?_⟩
      rw [h1.2.2]
      have h2 := iterate_conserves p
      omega
    · next h =>
      have hf : (iterate p).1 = false := by
        cases hb : (iterate p).1
        · rfl
        · exact absurd hb h
      have h2 := (iterate_false_iff p).mp hf
      have h3 := iterate_conserves p
      exact ⟨h2.1, h2.2, by omega⟩

/-- C4: a single `iterate()` pass returns `false` exactly when every
source has signaled EOS (`remaining = 0`) and no buffered data remains
in flight (`inflight = 0`); a pass neither loses nor creates data; and
the driver loop `while pipeline.iterate(): pass` (`drive`) terminates
with the pipeline fully drained, every produced buffer having reached
the sink. -/
theorem iterate_eos_spec (p : Pipe) :
    ((iterate p).1 = false ↔
        ((iterate p).2.remaining = 0 ∧ (iterate p).2.inflight = 0))
    ∧ ((iterate p).2.consumed + (iterate p).2.inflight + (iterate p).2.remaining
        = p.consumed + p.inflight + p.remaining)
    ∧ ((drive p).remaining = 0 ∧ (drive p).inflight = 0
        ∧ (drive p).consumed = p.consumed + p.inflight + p.remaining) :=
  ⟨iterate_false_iff p, iterate_conserves p, drive_drains p⟩

/-- C5: element factory creation with an unregistered type name fails
with `UnknownElementType` and leaves the graph untouched; with a
registered type name it returns an element of that type, also leaving
the graph untouched. -/
theorem createElement_spec (reg : Registry) (g : Graph) (tn inm : String) :
    (reg.types.contains tn = false →
        createElement reg g tn inm = (.error .UnknownElementType, g))
    ∧ (reg.types.contains tn = true →
        createElement reg g tn inm = (.ok { typeName := tn, name := inm }, g)) := by
  constructor <;> intro h <;> simp [createElement, h] <;> simpa using h

/-- Witness for C5: with only `fakesrc` registered, creating a
`nonexistent-type` fails with `UnknownElementType` leaving the empty
graph unchanged, while creating a `fakesrc` succeeds. -/
theorem createElement_spec_witness :
    createElement ⟨["fakesrc"]⟩ ⟨[]⟩ "nonexistent-type" "x"
      = (.error .UnknownElementType, ⟨[]⟩)
    ∧ createElement ⟨["fakesrc"]⟩ ⟨[]⟩ "fakesrc" "src"
      = (.ok { typeName := "fakesrc", name := "src" }, ⟨[]⟩) :=
  ⟨(createElement_spec ⟨["fakesrc"]⟩ ⟨[]⟩ "nonexistent-type" "x").1 (by decide),
   (createElement_spec ⟨["fakesrc"]⟩ ⟨[]⟩ "fakesrc" "src").2 (by decide)⟩

/-- C6: creating a new pad at run time fires the `new_pad` (pad-added)
notification; the new pad can be linked mid-run without stopping the
scheduling loop (the running flag is untouched and the pad acquires
its peer); data arriving on the still-unlinked pad is buffered under
the buffer policy and discarded without any other effect under the
drop policy, and in either case the scheduling loop's state survives
(delivery is total and leaves the loop running). -/
theorem dynamic_pad_spec (s : SchedState) (n pn : String) (d : Nat) :
    ((addPad s n).notices = s.notices ++ ["new_pad:" ++ n])
    ∧ ((addPad s n).running = s.running)
    ∧ ((linkNewPad (addPad s n) n pn).running = s.running
        ∧ ∃ q ∈ (linkNewPad (addPad s n) n pn).pads, q.name = n ∧ q.peer = some pn)
    ∧ ((deliver .buffer (addPad s n) n d).running = s.running
        ∧ ∃ q ∈ (deliver .buffer (addPad s n) n d).pads,
            q.name = n ∧ q.buffered = [d])
    ∧ deliver .drop (addPad s n) n d = addPad s n := by
  refine ⟨rfl, rfl, ⟨rfl, ?_⟩, ⟨rfl, ?_⟩, ?_⟩
  · simp only [linkNewPad, addPad]
    refine ⟨_, List.mem_map_of_mem _
      (List.mem_append_right _ (List.mem_singleton.mpr rfl)), ?_⟩
    simp
  · simp only [deliver, addPad]
    refine ⟨_, List.mem_map_of_mem _
      (List.mem_append_right _ (List.mem_singleton.mpr rfl)), ?_⟩
    simp
  · simp only [deliver]
    have hmap : ∀ l : List RunPad,
        (l.map (fun q =>
          if q.name = n ∧ q.peer = none then
            match UnlinkedPolicy.drop with
            | .buffer => { q with buffered := q.buffered ++ [d] }
            | .drop => q
          else q)) = l := by
      intro l
      simp
    rw [hmap]

/-- C7: the `cp` example exits with code 0 exactly when it was given
exactly two operands (`len(sys.argv) == 3`) and the `statistics`,
`filesrc` and `filesink` plugins could all be created; every other
invocation is a setup failure and exits with code -1. -/
theorem cp_exit_spec (env : CpEnv) :
    ((cpMain env).1 = 0 ↔
      (env.hasStatistics = true ∧ env.argv.length = 3
        ∧ env.hasFilesrc = true ∧ env.hasFilesink = true))
    ∧ ((cpMain env).1 = 0 ∨ (cpMain env).1 = -1) := by
  rcases env with ⟨argv, hs, hsrc, hsink⟩
  by_cases h3 : argv.length = 3 <;> cases hs <;> cases hsrc <;> cases hsink <;>
    simp [cpMain, cpFilter, h3]

/-- C8: the `f2f` example ignores its argument vector entirely (its
trace is the same for every argv), configures the fake source with
`num_buffers = 10`, links source to sink, and its state-change
sequence is PLAYING, then the iterate-until-false run loop, then NULL,
in that order. -/
theorem f2f_spec (argv : List String) :
    f2fMain argv = f2fMain []
    ∧ Ev.setPropN "src" "num_buffers" 10 ∈ f2fMain argv
    ∧ Ev.linkE "src" "sink" ∈ f2fMain argv
    ∧ List.indexOf (Ev.setSt .playing) (f2fMain argv)
        < List.indexOf Ev.runLoop (f2fMain argv)
    ∧ List.indexOf Ev.runLoop (f2fMain argv)
        < List.indexOf (Ev.setSt .null) (f2fMain argv) := by
  refine ⟨rfl, ?_, ?_, ?_, ?_⟩
  · show Ev.setPropN "src" "num_buffers" 10 ∈ f2fMain []
    decide
  · show Ev.linkE "src" "sink" ∈ f2fMain []
    decide
  · show List.indexOf (Ev.setSt .playing) (f2fMain [])
        < List.indexOf Ev.runLoop (f2fMain [])
    decide
  · show List.indexOf Ev.runLoop (f2fMain [])
        < List.indexOf (Ev.setSt .null) (f2fMain [])
    decide

/-- C9: `cp`'s `main` creates and configures the `statistics` element
(silent=0, buffer_update_freq=1, update_on_eos=1) before `filter`
validates the argument count, so a wrong-argument-count invocation
still performs exactly those four engine calls and then returns -1. -/
theorem cp_stats_before_argcheck (env : CpEnv)
    (hargs : env.argv.length ≠ 3) (hstat : env.hasStatistics = true) :
    (cpMain env).1 = -1
    ∧ (cpMain env).2 = [.create "statistics" "stats",
        .setPropN "stats" "silent" 0,
        .setPropN "stats" "buffer_update_freq" 1,
        .setPropN "stats" "update_on_eos" 1] := by
  rcases env with ⟨argv, hs, hsrc, hsink⟩
  simp only at hargs hstat
  subst hstat
  simp [cpMain, cpFilter, hargs]

/-- Witness for C9: invoking `cp` with no operands and all plugins
available still creates and configures the statistics element, then
exits -1. -/
theorem cp_stats_before_argcheck_witness :
    (cpMain cpEnvBadArgs).1 = -1
    ∧ (cpMain cpEnvBadArgs).2 = [.create "statistics" "stats",
        .setPropN "stats" "silent" 0,
        .setPropN "stats" "buffer_update_freq" 1,
        .setPropN "stats" "update_on_eos" 1] :=
  cp_stats_before_argcheck cpEnvBadArgs (by decide) rfl

theorem dvdRun_terminates_only_on_eos (flag : Bool) (p : Pipe)
    (evs : List GtkEvent) (n : Int) (h : dvdRun flag p evs = some n) :
    n = 0 ∧ GtkEvent.eosSignal ∈ evs := by
  induction evs generalizing flag p with
  | nil => simp [dvdRun] at h
  | cons e rest ih =>
    cases e with
    | idleTick =>
      cases flag with
      | false =>
        simp only [dvdRun, if_neg] at h
        rcases ih false p h with ⟨h1, h2⟩
        exact ⟨h1, List.mem_cons_of_mem _ h2⟩
      | true =>
        simp only [dvdRun, if_pos, idleHandler] at h
        rcases ih _ _ h with ⟨h1, h2⟩
        exact ⟨h1, List.mem_cons_of_mem _ h2⟩
    | eosSignal =>
      simp only [dvdRun, eofHandler, Option.some.injEq] at h
      exact ⟨h.symm, List.mem_cons_self _ _⟩

theorem dvdRun_none_of_no_eos (flag : Bool) (p : Pipe) (evs : List GtkEvent) :
    (∀ e ∈ evs, e = GtkEvent.idleTick) → dvdRun flag p evs = none := by
  induction evs generalizing flag p with
  | nil => intro _; rfl
  | cons e rest ih =>
    intro h
    have he := h e (List.mem_cons_self _ _)
    subst he
    have hr : ∀ x ∈ rest, x = GtkEvent.idleTick :=
      fun x hx => h x (List.mem_cons_of_mem _ hx)
    cases flag with
    | false =>
      simp only [dvdRun, if_neg]
      exact ih false p hr
    | true =>
      simp only [dvdRun, if_pos, idleHandler]
      exact ih _ _ hr

/-- C10: dvdplay's GUI idle handler discards `iterate()`'s return
value and always returns 1 (so GTK reschedules it unconditionally);
the main loop yields an exit code only when an `eos` signal arrives,
and that code is 0 (the `eof` handler's `sys.exit(0)`); a run seeing
only idle ticks never terminates through `iterate()`'s return value,
however many ticks occur. -/
theorem dvd_idle_spec :
    (∀ p, idleHandler p = ((iterate p).2, 1))
    ∧ (∀ p evs n, dvdRun true p evs = some n → n = 0 ∧ GtkEvent.eosSignal ∈ evs)
    ∧ (∀ p evs, (∀ e ∈ evs, e = GtkEvent.idleTick) → dvdRun true p evs = none) :=
  ⟨fun _ => rfl,
   fun p evs n h => dvdRun_terminates_only_on_eos true p evs n h,
   fun p evs h => dvdRun_none_of_no_eos true p evs h⟩

/-- Witness for C10: a run with one idle tick and then the `eos`
signal exits with code 0, and a run of two bare idle ticks on a
drained pipeline does not terminate the loop. -/
theorem dvd_idle_spec_witness :
    ((0 : Int) = 0
      ∧ GtkEvent.eosSignal ∈ [GtkEvent.idleTick, GtkEvent.eosSignal])
    ∧ dvdRun true { remaining := 0, inflight := 0, consumed := 0 }
        [GtkEvent.idleTick, GtkEvent.idleTick] = none :=
  ⟨dvd_idle_spec.2.1 { remaining := 3, inflight := 1, consumed := 0 }
      [GtkEvent.idleTick, GtkEvent.eosSignal] 0 (by decide),
   dvd_idle_spec.2.2 { remaining := 0, inflight := 0, consumed := 0 }
      [GtkEvent.idleTick, GtkEvent.idleTick] (by decide)⟩

end Gst
